import Mathlib

/-!
Verification of the real-time audio relay and turn-taking engine of the
VoiceAgentGeminiLive backend (src/backend/main.py), as a shallow embedding.

Modelling conventions:
* 16-bit PCM samples are integers (ℤ); float32 samples are exact rationals (ℚ).
  Python float arithmetic is modelled by exact rational arithmetic; every
  concrete input used below keeps the float computations exact, so the model
  and the code agree at those inputs.
* The scipy band-limited interpolation kernel used by signal.resample is kept
  abstract as a parameter `kernel : List ℚ → ℕ → List ℚ`; its documented
  contract is that `kernel xs n` has exactly `n` elements (KernelSpec below).
* The Silero classifier (self.model) is abstract as well: a scoring function
  `List ℚ → Except Unit ℚ` that may raise (modelled by `Except.error`).
* Fallible code returns `Except`; a Python `try/except` block around a
  computation is a `match` on that `Except`.
-/

/-- Scored window length required by the classifier
(main.py line 87: `required_samples = 512`). -/
def required_samples : ℕ := 512

/-- Contract of `scipy.signal.resample`: asked for a positive number `n` of
output samples, it returns exactly `n` samples.  A request for fewer than one
sample is rejected by scipy with a ValueError and never reaches the
interpolation kernel; that error path is modelled in `resample_audio`. -/
def KernelSpec (kernel : List ℚ → ℕ → List ℚ) : Prop :=
  ∀ xs n, 0 < n → (kernel xs n).length = n

/-- Embedding of `VoiceActivityDetector.resample_audio` (main.py lines 52-63).
`ratio = target_rate / original_rate; new_length = int(len(audio_data) * ratio)`
with Python `int()` truncating toward zero, modelled by `Int.tdiv` on the
exact product.  Python raises ZeroDivisionError at `target_rate / 0`, and
`signal.resample` (rfft/irfft) raises ValueError whenever the requested
length is smaller than one — which covers both a truncated length of zero and
the empty-input case (an empty input always truncates to zero).  Both raises
surface as `Except.error`.  There is no validation of the rates themselves. -/
def resample_audio (kernel : List ℚ → ℕ → List ℚ) (audio_data : List ℚ)
    (original_rate target_rate : ℤ) : Except Unit (List ℚ) :=
  if original_rate = target_rate then Except.ok audio_data
  else if original_rate = 0 then Except.error ()
  else
    let new_length : ℤ := Int.tdiv ((audio_data.length : ℤ) * target_rate) original_rate
    if new_length < 1 then Except.error ()
    else Except.ok (kernel audio_data new_length.toNat)

/-- Conversion of int16 PCM to normalized float (main.py line 80:
`audio_np.astype(np.float32) / 32768.0`). -/
def normalize_audio (audio_np : List ℤ) : List ℚ :=
  audio_np.map (fun (s : ℤ) => (s : ℚ) / 32768)

/-- Embedding of the framing step of `is_speech` (main.py lines 89-97):
a short frame is written into a fresh zero buffer of length 512
(`padded_audio = np.zeros(512); padded_audio[:len] = audio_float`),
a long frame keeps the centred slice
(`start_idx = (len - 512) // 2; audio_float[start_idx:start_idx + 512]`). -/
def pad_or_trim (audio_float : List ℚ) : List ℚ :=
  if audio_float.length < required_samples then
    audio_float ++ (List.replicate required_samples (0 : ℚ)).drop audio_float.length
  else if required_samples < audio_float.length then
    (audio_float.drop ((audio_float.length - required_samples) / 2)).take required_samples
  else audio_float

/-- Mean of squares of a float buffer (main.py line 107 computes
`rms = np.sqrt(np.mean(audio_float ** 2))`; we keep the mean of squares and
compare against squared cutoffs, which is equivalent since `np.sqrt` is
monotone and both sides are nonnegative). -/
def meanSq (xs : List ℚ) : ℚ :=
  (xs.foldl (fun a x => a + x * x) 0) / (xs.length : ℚ)

/-- State of `VoiceActivityDetector` after `__init__` (main.py lines 38-50):
either the Silero model loaded (`is_initialized = True`) or it did not.
The loaded model is the abstract scorer `model`. -/
structure VAD where
  is_initialized : Bool
  model : List ℚ → Except Unit ℚ

/-- Body of the `try:` block of `VoiceActivityDetector.is_speech`
(main.py lines 71-117).  The adaptive threshold at line 108
(`threshold = 0.2 if rms > 0.005 else 0.3`) is taken on squares:
`rms > 0.005` iff `meanSq > 1/40000`. -/
def is_speech_body (model : List ℚ → Except Unit ℚ)
    (kernel : List ℚ → ℕ → List ℚ)
    (audio_data : List ℤ) (sample_rate : ℤ) : Except Unit Bool :=
  if audio_data.length = 0 then Except.ok false
  else
    let audio_float := normalize_audio audio_data
    match (if sample_rate ≠ 16000
           then resample_audio kernel audio_float sample_rate 16000
           else Except.ok audio_float) with
    | Except.error e => Except.error e
    | Except.ok audio_resampled =>
      let audio_fixed := pad_or_trim audio_resampled
      match model audio_fixed with
      | Except.error e => Except.error e
      | Except.ok speech_prob =>
        let threshold : ℚ := if meanSq audio_fixed > 1 / 40000 then 1 / 5 else 3 / 10
        Except.ok (speech_prob > threshold)

/-- Embedding of `VoiceActivityDetector.is_speech` (main.py lines 65-121):
returns True when the model is unavailable (lines 67-69), and True when
anything inside the `try:` block raises (lines 118-121); otherwise the
decision computed by the body. -/
def VAD.is_speech (vad : VAD) (kernel : List ℚ → ℕ → List ℚ)
    (audio_data : List ℤ) (sample_rate : ℤ) : Bool :=
  if vad.is_initialized = false then true
  else
    match is_speech_body vad.model kernel audio_data sample_rate with
    | Except.ok b => b
    | Except.error _ => true

/-- Session configuration fields consulted by the relay
(main.py: `set_config` line 225 reads `vad_enabled`, default True;
`send_audio` line 267 reads `allow_interruptions`, default False). -/
structure SessionConfig where
  allow_interruptions : Bool
  vad_enabled : Bool

/-- One `realtimeInput` message transmitted to the AI-service channel
(main.py lines 290-299): the media chunk samples and the rate in its
`mimeType` tag `audio/pcm;rate=...`. -/
structure SentMsg where
  data : List ℤ
  rate : ℤ
  deriving DecidableEq

/-- Observable outcome of one `send_audio` call: the messages transmitted to
the AI-service channel for this frame, and whether the speech gate
(`self.vad.is_speech`, main.py line 250) was invoked on the frame. -/
structure SendResult where
  sent : List SentMsg
  gate_invoked : Bool
  deriving DecidableEq

/-- Truncation toward zero of a rational, the behaviour of a numpy
float-to-integer cast. -/
def ratTrunc (x : ℚ) : ℤ := Int.tdiv x.num (x.den : ℤ)

/-- Wrap an integer into int16 range, the behaviour of
`.astype(np.int16)` on an out-of-range value. -/
def int16_wrap (v : ℤ) : ℤ := (v + 32768) % 65536 - 32768

/-- Model of `(resampled_audio * 32768).astype(np.int16)`
(main.py line 284) applied to one sample. -/
def quantize (x : ℚ) : ℤ := int16_wrap (ratTrunc (x * 32768))

/-- The gating substitution of `send_audio` (main.py lines 248-264): when VAD
is enabled and the verdict is not speech, the frame payload is replaced by a
zero byte buffer of the same byte length (line 254), whose int16 view is a
zero sample buffer of the same sample count; otherwise the payload is
unchanged. -/
def gatedData (config : SessionConfig) (vad : VAD)
    (kernel : List ℚ → ℕ → List ℚ)
    (audio_bytes : List ℤ) (sample_rate : ℤ) : List ℤ :=
  if config.vad_enabled && !(vad.is_speech kernel audio_bytes sample_rate)
  then List.replicate audio_bytes.length 0
  else audio_bytes

/-- Embedding of `AwaazConnection.send_audio` (main.py lines 228-313).
Control flow, in source order:
* line 238: an empty frame returns before anything else happens;
* lines 248-264: the VAD gate runs first, whenever `vad_enabled` holds,
  and may replace the payload with silence (`gatedData`);
* lines 266-269: the admission check
  `should_process = (not is_playing) or (is_playing and allow_interruptions)`
  is evaluated after the gate;
* lines 271-288: only when `sample_rate == 16000`, the ORIGINAL decoded
  bytes (`audio_bytes`, not the gated payload) are normalized, resampled
  16000 → 24000, re-quantized, and the rate tag becomes 24000;
* lines 290-304: exactly one message is transmitted; line 308: nothing is
  transmitted when `should_process` is false.  A resampling exception would
  be caught by the outer `try/except` (line 310) with nothing transmitted. -/
def send_audio (config : SessionConfig) (is_playing : Bool) (vad : VAD)
    (kernel : List ℚ → ℕ → List ℚ)
    (audio_bytes : List ℤ) (sample_rate : ℤ) : SendResult :=
  if audio_bytes.length = 0 then ⟨[], false⟩
  else
    let gate_invoked := config.vad_enabled
    let audio_data := gatedData config vad kernel audio_bytes sample_rate
    let should_process := (!is_playing) || (is_playing && config.allow_interruptions)
    if should_process then
      if sample_rate = 16000 then
        match resample_audio kernel (normalize_audio audio_bytes) 16000 24000 with
        | Except.ok resampled_audio =>
            ⟨[⟨resampled_audio.map quantize, 24000⟩], gate_invoked⟩
        | Except.error _ => ⟨[], gate_invoked⟩
      else ⟨[⟨audio_data, sample_rate⟩], gate_invoked⟩
    else ⟨[], gate_invoked⟩

/-- One content part of a `serverContent.modelTurn` message from the AI
service (main.py lines 576-617): `inlineData` (audio) or `text`.  Payloads
are opaque tokens. -/
inductive GPart where
  | inlineData (payload : ℕ) (mime : ℕ)
  | textPart (payload : ℕ)
  deriving DecidableEq

/-- One `serverContent` message: content parts plus the optional
`turnComplete` flag (main.py line 624). -/
structure ServerMsg where
  parts : List GPart
  turnComplete : Bool
  deriving DecidableEq

/-- Messages the relay sends to the browser client over its websocket. -/
inductive ClientMsg where
  | audio (payload : ℕ) (mime : ℕ)
  | text (payload : ℕ)
  | statusListening
  deriving DecidableEq

/-- Processing of one content part by `receive_from_awaaz`
(main.py lines 576-617): audio sets `is_playing = True` and is forwarded;
text is forwarded and leaves `is_playing` alone. -/
def processPart (is_playing : Bool) (p : GPart) : Bool × List ClientMsg :=
  match p with
  | GPart.inlineData d m => (true, [ClientMsg.audio d m])
  | GPart.textPart t => (is_playing, [ClientMsg.text t])

/-- Processing of one `serverContent` message by `receive_from_awaaz`
(main.py lines 564-637): all parts in order, then the `turnComplete` check,
which resets `is_playing` to False and sends the `listening` status. -/
def processMsg (is_playing : Bool) (m : ServerMsg) : Bool × List ClientMsg :=
  let step := m.parts.foldl
    (fun acc p =>
      let r := processPart acc.1 p
      (r.1, acc.2 ++ r.2))
    (is_playing, [])
  if m.turnComplete then (false, step.2 ++ [ClientMsg.statusListening])
  else step

/-- Processing of a sequence of `serverContent` messages, threading
`is_playing` and accumulating the client-bound messages. -/
def runMsgs (is_playing : Bool) (msgs : List ServerMsg) : Bool × List ClientMsg :=
  match msgs with
  | [] => (is_playing, [])
  | m :: rest =>
    let r := processMsg is_playing m
    let rec_result := runMsgs r.1 rest
    (rec_result.1, r.2 ++ rec_result.2)

/-- One event on the AI-service channel as seen by the service pump: a parsed
message, or the stream failing (the `async for` raising). -/
inductive StreamEvent where
  | msg (m : ServerMsg)
  | streamError
  deriving DecidableEq

/-- Embedding of the `receive_from_awaaz` pump (main.py lines 534-690): it
folds over stream events; when the stream raises, the handler at lines
684-688 logs and returns — no message is sent to the client, and
`is_playing` keeps whatever value it had. -/
def runPump (is_playing : Bool) (events : List StreamEvent) : Bool × List ClientMsg :=
  match events with
  | [] => (is_playing, [])
  | StreamEvent.streamError :: _ => (is_playing, [])
  | StreamEvent.msg m :: rest =>
    let r := processMsg is_playing m
    let rec_result := runPump r.1 rest
    (rec_result.1, r.2 ++ rec_result.2)

/-- A concrete interpolation kernel satisfying the scipy length contract, for
instantiating theorems at concrete inputs: it keeps the first requested
samples, zero-filling when asked for more than available.  On a one-sample
input asked for one output sample it agrees with FFT resampling, which is the
identity there. -/
def takeKernel (xs : List ℚ) (n : ℕ) : List ℚ := (xs ++ List.replicate n 0).take n

theorem takeKernel_spec : KernelSpec takeKernel := by
  intro xs n hn
  simp [takeKernel]

theorem normalize_audio_length (xs : List ℤ) :
    (normalize_audio xs).length = xs.length := by
  rw [normalize_audio, List.length_map]

theorem foldl_addsq_zeros (n : ℕ) (a : ℚ) :
    List.foldl (fun a x => a + x * x) a (List.replicate n 0) = a := by
  induction n generalizing a with
  | zero => rfl
  | succ k ih =>
    rw [List.replicate_succ, List.foldl_cons]
    simpa using ih a

theorem meanSq_cons_zeros (q : ℚ) (n : ℕ) :
    meanSq (q :: List.replicate n 0) = q * q / (n + 1) := by
  simp [meanSq, List.foldl_cons, foldl_addsq_zeros]

theorem pad_short (xs : List ℚ) (h : xs.length < required_samples) :
    pad_or_trim xs = xs ++ List.replicate (required_samples - xs.length) 0 := by
  rw [pad_or_trim, if_pos h, List.drop_replicate]

theorem getD_replicate_zero (k j : ℕ) :
    (List.replicate k (0 : ℚ)).getD j 0 = 0 := by
  by_cases h : j < k
  · rw [List.getD_eq_getElem _ _ (by simpa using h)]
    simp
  · rw [List.getD_eq_default]
    simpa using Nat.le_of_not_lt h

theorem resample_ok_of_ne (kernel : List ℚ → ℕ → List ℚ) (xs : List ℚ)
    (f t : ℤ) (hf : 0 < f) (hne : f ≠ t)
    (h1 : 1 ≤ Int.tdiv ((xs.length : ℤ) * t) f) :
    resample_audio kernel xs f t
      = Except.ok (kernel xs (Int.tdiv ((xs.length : ℤ) * t) f).toNat) := by
  have hf0 : ¬ f = 0 := by omega
  simp [resample_audio, hne, hf0, not_lt.mpr h1]

theorem tdiv_16k_24k_ge_one (L : ℕ) (hL : 1 ≤ L) :
    1 ≤ Int.tdiv ((L : ℤ) * 24000) 16000 := by
  rw [Int.tdiv_eq_ediv (by positivity) (by norm_num)]
  rw [Int.le_ediv_iff_mul_le (by norm_num)]
  push_cast
  omega

theorem resample_ok_16_24 (kernel : List ℚ → ℕ → List ℚ) (xs : List ℚ)
    (hxs : 1 ≤ xs.length) :
    resample_audio kernel xs 16000 24000
      = Except.ok (kernel xs (Int.tdiv ((xs.length : ℤ) * 24000) 16000).toNat) :=
  resample_ok_of_ne kernel xs 16000 24000 (by norm_num) (by norm_num)
    (tdiv_16k_24k_ge_one xs.length hxs)

theorem resample_half :
    resample_audio takeKernel [(1 : ℚ)/2] 16000 24000 = Except.ok [(1 : ℚ)/2] := by
  rw [resample_audio]
  norm_num [takeKernel, Int.tdiv]

theorem quantize_half : quantize ((1 : ℚ)/2) = 16384 := by
  norm_num [quantize, ratTrunc, int16_wrap, Int.tdiv]

theorem is_speech_zero_score_16384 :
    VAD.is_speech ⟨true, fun _ => Except.ok 0⟩ takeKernel [16384] 16000 = false := by
  rw [VAD.is_speech]
  simp only [is_speech_body, normalize_audio, List.map, List.length,
    if_neg (by norm_num : ¬(1 = 0))]
  norm_num
  rw [pad_short _ (by norm_num [required_samples])]
  norm_num [required_samples, meanSq_cons_zeros]

theorem runMsgs_append (b : Bool) (l1 l2 : List ServerMsg) :
    runMsgs b (l1 ++ l2)
      = ((runMsgs (runMsgs b l1).1 l2).1,
         (runMsgs b l1).2 ++ (runMsgs (runMsgs b l1).1 l2).2) := by
  induction l1 generalizing b with
  | nil => simp [runMsgs]
  | cons m rest ih =>
    simp only [List.cons_append, runMsgs, List.append_eq]
    rw [ih]
    simp [List.append_assoc]

theorem runMsgs_textOnly (texts : List ℕ) (b : Bool) :
    runMsgs b (texts.map fun t => (⟨[GPart.textPart t], false⟩ : ServerMsg))
      = (b, texts.map ClientMsg.text) := by
  induction texts generalizing b with
  | nil => rfl
  | cons t rest ih => simp [runMsgs, processMsg, processPart, ih]

/-- C1 (counterexample): a client frame that decodes to zero samples is
dropped by `send_audio` (main.py line 238) even though the assistant is not
speaking, so the claim that every frame received while speaking is false is
processed and forwarded fails at the empty frame. -/
theorem C1_empty_frame_not_forwarded :
    (send_audio ⟨false, true⟩ false ⟨true, fun _ => Except.ok 1⟩ takeKernel [] 16000).sent
      = [] := rfl

/-- C1 (amended): for every NON-EMPTY client audio frame, when the assistant
is speaking and interruptions are disallowed, zero messages are transmitted to
the AI-service channel; when the assistant is not speaking, or interruptions
are allowed, exactly one (gated) message is transmitted. -/
theorem C1_admission (config : SessionConfig) (is_playing : Bool) (vad : VAD)
    (kernel : List ℚ → ℕ → List ℚ) (audio_bytes : List ℤ) (sample_rate : ℤ)
    (hne : audio_bytes ≠ []) :
    ((is_playing = true ∧ config.allow_interruptions = false) →
      (send_audio config is_playing vad kernel audio_bytes sample_rate).sent = []) ∧
    ((is_playing = false ∨ config.allow_interruptions = true) →
      (send_audio config is_playing vad kernel audio_bytes sample_rate).sent.length = 1) := by
  have hlen : ¬ audio_bytes.length = 0 := by simpa using hne
  constructor
  · rintro ⟨hp, ha⟩
    simp [send_audio, hlen, hp, ha]
  · intro h
    have hsp : ((!is_playing) || (is_playing && config.allow_interruptions)) = true := by
      rcases h with h | h <;> simp [h]
    by_cases h16 : sample_rate = 16000
    · have hr := resample_ok_16_24 kernel (normalize_audio audio_bytes)
        (by rw [normalize_audio_length]; omega)
    -- with the resample step succeeding, exactly one message is built
      simp [send_audio, hlen, hsp, h16, hr]
    · simp [send_audio, hlen, hsp, h16]

/-- C1 (witness). -/
theorem C1_admission_witness :
    (send_audio ⟨false, true⟩ true ⟨true, fun _ => Except.ok 1⟩ takeKernel [5] 44100).sent
      = [] ∧
    (send_audio ⟨false, false⟩ false ⟨true, fun _ => Except.ok 1⟩ takeKernel [5] 44100).sent.length
      = 1 :=
  ⟨(C1_admission ⟨false, true⟩ true ⟨true, fun _ => Except.ok 1⟩ takeKernel [5] 44100
      (by simp)).1 ⟨rfl, rfl⟩,
   (C1_admission ⟨false, false⟩ false ⟨true, fun _ => Except.ok 1⟩ takeKernel [5] 44100
      (by simp)).2 (Or.inl rfl)⟩

/-- C2 (code evaluated at the failing input): a 16 kHz frame whose gate
verdict is not-speech is transmitted as the resampled ORIGINAL samples, not
as silence: lines 271-285 of main.py rebuild the outbound payload from
`audio_bytes`, discarding the silence substitution made at lines 252-255.
At the one-sample frame [16384] with a classifier scoring 0 the verdict is
not-speech, yet the transmitted message carries [16384], not the zero buffer
of the same length. -/
theorem C2_not_speech_16k_sends_original :
    VAD.is_speech ⟨true, fun _ => Except.ok 0⟩ takeKernel [16384] 16000 = false ∧
    (send_audio ⟨false, true⟩ false ⟨true, fun _ => Except.ok 0⟩ takeKernel [16384] 16000).sent
      = [⟨[16384], 24000⟩] ∧
    ([⟨[16384], 24000⟩] : List SentMsg) ≠ [⟨List.replicate 1 0, 24000⟩] := by
  refine ⟨is_speech_zero_score_16384, ?_, by decide⟩
  rw [send_audio]
  simp only [List.length, if_neg (by norm_num : ¬(1 = 0))]
  norm_num [normalize_audio, resample_half, quantize_half]

/-- C3 (confirmed): the gate fails open — `is_speech` returns true whenever
the model is unavailable (main.py lines 67-69), and true whenever the
classifier raises during scoring (lines 118-121), for every frame content and
rate. -/
theorem C3_fail_open (vad : VAD) (kernel : List ℚ → ℕ → List ℚ)
    (audio_data : List ℤ) (sample_rate : ℤ) :
    (vad.is_initialized = false → vad.is_speech kernel audio_data sample_rate = true) ∧
    ((∀ w, vad.model w = Except.error ()) → audio_data ≠ [] →
      vad.is_speech kernel audio_data sample_rate = true) := by
  constructor
  · intro h
    simp [VAD.is_speech, h]
  · intro hm hne
    have hlen : ¬ audio_data.length = 0 := by simpa using hne
    rw [VAD.is_speech]
    by_cases hinit : vad.is_initialized = false
    · simp [hinit]
    · rw [if_neg hinit]
      simp only [is_speech_body, hlen, if_false, ite_false]
      simp only [hm]
      by_cases h16 : sample_rate ≠ 16000
      · rw [if_pos h16]
        cases resample_audio kernel (normalize_audio audio_data) sample_rate 16000 with
        | error e => rfl
        | ok ys => rfl
      · rw [if_neg h16]

/-- C3 (witness). -/
theorem C3_fail_open_witness :
    VAD.is_speech ⟨false, fun _ => Except.ok 0⟩ takeKernel [7] 44100 = true ∧
    VAD.is_speech ⟨true, fun _ => Except.error ()⟩ takeKernel [7] 16000 = true :=
  ⟨(C3_fail_open ⟨false, fun _ => Except.ok 0⟩ takeKernel [7] 44100).1 rfl,
   (C3_fail_open ⟨true, fun _ => Except.error ()⟩ takeKernel [7] 16000).2
     (fun w => rfl) (by simp)⟩

/-- C4 (confirmed): starting from Idle, a service-message sequence of one
audio payload, then any number of text payloads, then a turnComplete signal
drives the speaking flag true at the audio payload, leaves it unchanged
through every text payload, and resets it at turnComplete, after which the
listening status notification is sent (main.py lines 564-637). -/
theorem C4_turn_lifecycle (d m : ℕ) (texts : List ℕ) :
    (processMsg false ⟨[GPart.inlineData d m], false⟩).1 = true ∧
    runMsgs true (texts.map fun t => (⟨[GPart.textPart t], false⟩ : ServerMsg))
      = (true, texts.map ClientMsg.text) ∧
    processMsg true ⟨[], true⟩ = (false, [ClientMsg.statusListening]) ∧
    runMsgs false
        ((⟨[GPart.inlineData d m], false⟩ : ServerMsg) ::
          ((texts.map fun t => (⟨[GPart.textPart t], false⟩ : ServerMsg))
            ++ [⟨[], true⟩]))
      = (false, ClientMsg.audio d m ::
          (texts.map ClientMsg.text ++ [ClientMsg.statusListening])) := by
  refine ⟨rfl, runMsgs_textOnly texts true, rfl, ?_⟩
  have h1 : processMsg false ⟨[GPart.inlineData d m], false⟩
      = (true, [ClientMsg.audio d m]) := rfl
  rw [runMsgs, h1, runMsgs_append, runMsgs_textOnly texts true]
  simp [runMsgs, processMsg]

/-- C5 (counterexample): an admitted frame at native rate 44100 is
transmitted unresampled and its message is tagged with the native rate,
not with the service rate 24000 (main.py lines 271-299 only convert when
`sample_rate == 16000`). -/
theorem C5_native_rate_passthrough :
    (send_audio ⟨false, false⟩ false ⟨true, fun _ => Except.ok 1⟩ takeKernel [100] 44100).sent
      = [⟨[100], 44100⟩] ∧ (44100 : ℤ) ≠ 24000 := by
  constructor
  · rw [send_audio]
    simp [gatedData]
  · decide

/-- C5 (amended): an admitted non-empty frame is resampled and re-tagged to
24000 only when its native rate is exactly 16000; at any other native rate the
(gated) samples are transmitted unchanged, tagged with the native rate. -/
theorem C5_resample_only_16k (config : SessionConfig) (is_playing : Bool) (vad : VAD)
    (kernel : List ℚ → ℕ → List ℚ) (audio_bytes : List ℤ) (sample_rate : ℤ)
    (hne : audio_bytes ≠ [])
    (hadm : is_playing = false ∨ config.allow_interruptions = true) :
    (sample_rate = 16000 →
      (send_audio config is_playing vad kernel audio_bytes sample_rate).sent
        = [⟨(kernel (normalize_audio audio_bytes)
              (Int.tdiv ((audio_bytes.length : ℤ) * 24000) 16000).toNat).map quantize,
            24000⟩]) ∧
    (sample_rate ≠ 16000 →
      (send_audio config is_playing vad kernel audio_bytes sample_rate).sent
        = [⟨gatedData config vad kernel audio_bytes sample_rate, sample_rate⟩]) := by
  have hlen : ¬ audio_bytes.length = 0 := by simpa using hne
  have hsp : ((!is_playing) || (is_playing && config.allow_interruptions)) = true := by
    rcases hadm with h | h <;> simp [h]
  constructor
  · intro h16
    have hr := resample_ok_16_24 kernel (normalize_audio audio_bytes)
      (by rw [normalize_audio_length]; omega)
    rw [normalize_audio_length] at hr
    simp [send_audio, hlen, hsp, h16, hr]
  · intro h16
    simp [send_audio, hlen, hsp, h16]

/-- C5 (witness). -/
theorem C5_resample_only_16k_witness :
    (send_audio ⟨false, false⟩ false ⟨true, fun _ => Except.ok 1⟩ takeKernel [16384] 16000).sent
      = [⟨(takeKernel (normalize_audio [16384])
            (Int.tdiv ((1 : ℤ) * 24000) 16000).toNat).map quantize, 24000⟩] ∧
    (send_audio ⟨false, false⟩ false ⟨true, fun _ => Except.ok 1⟩ takeKernel [7] 44100).sent
      = [⟨gatedData ⟨false, false⟩ ⟨true, fun _ => Except.ok 1⟩ takeKernel [7] 44100, 44100⟩] := by
  constructor
  · have := (C5_resample_only_16k ⟨false, false⟩ false ⟨true, fun _ => Except.ok 1⟩
      takeKernel [16384] 16000 (by simp) (Or.inl rfl)).1 rfl
    simpa using this
  · exact (C5_resample_only_16k ⟨false, false⟩ false ⟨true, fun _ => Except.ok 1⟩
      takeKernel [7] 44100 (by simp) (Or.inl rfl)).2 (by decide)

/-- C6 (counterexample): with gating enabled, a non-empty frame arriving
while the assistant is speaking and interruptions are disallowed is dropped,
yet the speech gate IS invoked on it first (main.py line 250 runs before the
admission check at lines 266-271). -/
theorem C6_gate_runs_while_blocked :
    send_audio ⟨false, true⟩ true ⟨true, fun _ => Except.ok 1⟩ takeKernel [5] 44100
      = ⟨[], true⟩ := by
  rw [send_audio]
  simp

/-- C6 (amended): the speech gate is invoked on a client frame exactly when
the frame is non-empty and gating is enabled, independently of the admission
check (speaking/interruption state): the gate runs even on frames that are
subsequently dropped. -/
theorem C6_gate_invocation_unconditional (config : SessionConfig) (is_playing : Bool)
    (vad : VAD) (kernel : List ℚ → ℕ → List ℚ)
    (audio_bytes : List ℤ) (sample_rate : ℤ) :
    (send_audio config is_playing vad kernel audio_bytes sample_rate).gate_invoked
      = (!audio_bytes.isEmpty && config.vad_enabled) := by
  by_cases h : audio_bytes.length = 0
  · have hnil : audio_bytes = [] := List.length_eq_zero.mp h
    simp [send_audio, hnil]
  · have hemp : audio_bytes.isEmpty = false := by
      cases audio_bytes with
      | nil => simp at h
      | cons a rest => rfl
    rw [send_audio, if_neg h, hemp]
    split
    · split
      · cases resample_audio kernel (normalize_audio audio_bytes) 16000 24000 with
        | error e => simp [apply_ite SendResult.gate_invoked]
        | ok ys => simp [apply_ite SendResult.gate_invoked]
      · simp [apply_ite SendResult.gate_invoked]
    · simp [apply_ite SendResult.gate_invoked]

/-- C7 (counterexample): at a one-sample input and rates 16000 → 24000 the
code produces int(1 * 1.5) = 1 output sample, while round(1 * 24000/16000)
is 2: the output count follows Python int() truncation, not round(). -/
theorem C7_length_truncated_not_rounded :
    resample_audio takeKernel [(1 : ℚ)] 16000 24000 = Except.ok [1] ∧
    List.length [(1 : ℚ)] = 1 ∧
    round ((List.length [(1 : ℚ)] : ℚ) * 24000 / 16000) = 2 ∧ (1 : ℤ) ≠ 2 := by
  refine ⟨?_, rfl, ?_, by decide⟩
  · rw [resample_audio]
    norm_num [takeKernel, Int.tdiv]
  · norm_num [round_eq]

/-- C7 (amended): for every sample sequence and positive rates, equal rates
return the input unchanged; with differing rates, whenever the truncated
target count ⌊len(samples) * toRate / fromRate⌋ is at least one the call
produces exactly that many output samples (truncation, as Python int(), not
rounding), and whenever that count is below one — e.g. a single sample
downsampled, or an empty input — `signal.resample` raises and the call
fails instead of returning samples. -/
theorem C7_resample_contract (kernel : List ℚ → ℕ → List ℚ)
    (hker : KernelSpec kernel) (samples : List ℚ) (f t : ℤ)
    (hf : 0 < f) (ht : 0 < t) :
    (f = t → resample_audio kernel samples f t = Except.ok samples) ∧
    (f ≠ t → 1 ≤ Int.tdiv ((samples.length : ℤ) * t) f →
      ∃ out, resample_audio kernel samples f t = Except.ok out ∧
        (out.length : ℤ) = Int.tdiv ((samples.length : ℤ) * t) f) ∧
    (f ≠ t → Int.tdiv ((samples.length : ℤ) * t) f < 1 →
      resample_audio kernel samples f t = Except.error ()) := by
  refine ⟨fun hft => by simp [resample_audio, hft], fun hft h1 => ?_, fun hft h0 => ?_⟩
  · refine ⟨kernel samples (Int.tdiv ((samples.length : ℤ) * t) f).toNat,
      resample_ok_of_ne kernel samples f t hf hft h1, ?_⟩
    rw [hker _ _ (by omega)]
    exact Int.toNat_of_nonneg (by omega)
  · have hf0 : ¬ f = 0 := by omega
    simp [resample_audio, hft, hf0, h0]

/-- C7 (witness). -/
theorem C7_resample_contract_witness :
    resample_audio takeKernel [(1 : ℚ), 2] 8000 8000 = Except.ok [1, 2] ∧
    (∃ out, resample_audio takeKernel [(1 : ℚ), 2] 16000 24000 = Except.ok out ∧
      (out.length : ℤ) = 3) ∧
    resample_audio takeKernel [(9 : ℚ)] 44100 16000 = Except.error () := by
  refine ⟨?_, ?_, ?_⟩
  · exact (C7_resample_contract takeKernel takeKernel_spec [1, 2] 8000 8000
      (by norm_num) (by norm_num)).1 rfl
  · obtain ⟨out, h1, h2⟩ := (C7_resample_contract takeKernel takeKernel_spec [1, 2]
      16000 24000 (by norm_num) (by norm_num)).2.1 (by norm_num) (by decide)
    exact ⟨out, h1, by rw [h2]; decide⟩
  · exact (C7_resample_contract takeKernel takeKernel_spec [(9 : ℚ)] 44100 16000
      (by norm_num) (by norm_num)).2.2 (by norm_num) (by decide)

/-- C8 (confirmed): the window scored by the classifier is always exactly 512
samples: a shorter (resampled) frame keeps its samples at positions 0..N-1
with zeros after them; a longer frame keeps the centred contiguous sub-window,
the trim amounts at the two ends differing by at most one (exact symmetric
split of the even excess, left end favoured by one for odd excess). -/
theorem C8_window_framing (xs : List ℚ) :
    (xs.length < required_samples →
      (pad_or_trim xs).length = required_samples ∧
      (∀ i, i < xs.length → (pad_or_trim xs).getD i 0 = xs.getD i 0) ∧
      (∀ i, xs.length ≤ i → i < required_samples → (pad_or_trim xs).getD i 0 = 0)) ∧
    (required_samples < xs.length →
      (pad_or_trim xs).length = required_samples ∧
      (∀ i, i < required_samples →
        (pad_or_trim xs).getD i 0
          = xs.getD ((xs.length - required_samples) / 2 + i) 0) ∧
      ((xs.length - required_samples) / 2
          ≤ xs.length - required_samples - (xs.length - required_samples) / 2 ∧
        xs.length - required_samples - (xs.length - required_samples) / 2
          ≤ (xs.length - required_samples) / 2 + 1)) := by
  constructor
  · intro hshort
    rw [pad_short xs hshort]
    refine ⟨by simp; omega, ?_, ?_⟩
    · intro i hi
      rw [List.getD_append _ _ _ _ hi]
    · intro i hlow hhigh
      rw [List.getD_append_right _ _ _ _ hlow]
      exact getD_replicate_zero _ _
  · intro hlong
    have hk : (xs.length - required_samples) / 2 + required_samples ≤ xs.length := by
      omega
    rw [pad_or_trim, if_neg (by omega), if_pos hlong]
    have hlen : ((xs.drop ((xs.length - required_samples) / 2)).take required_samples).length
        = required_samples := by
      rw [List.length_take, List.length_drop]
      omega
    refine ⟨hlen, ?_, by omega, by omega⟩
    intro i hi
    have hi1 : i < ((xs.drop ((xs.length - required_samples) / 2)).take required_samples).length := by
      omega
    have hi2 : (xs.length - required_samples) / 2 + i < xs.length := by
      omega
    rw [List.getD_eq_getElem _ _ hi1, List.getD_eq_getElem _ _ hi2,
      List.getElem_take, List.getElem_drop]

/-- C8 (witness). -/
theorem C8_window_framing_witness :
    (pad_or_trim [(1 : ℚ), 2, 3]).length = required_samples ∧
    (pad_or_trim [(1 : ℚ), 2, 3]).getD 1 0 = [(1 : ℚ), 2, 3].getD 1 0 ∧
    (pad_or_trim [(1 : ℚ), 2, 3]).getD 5 0 = 0 ∧
    (pad_or_trim (List.replicate 515 (1 : ℚ))).getD 0 0
      = (List.replicate 515 (1 : ℚ)).getD ((515 - required_samples) / 2 + 0) 0 := by
  have hshort := (C8_window_framing [(1 : ℚ), 2, 3]).1 (by norm_num [required_samples])
  have hlong := (C8_window_framing (List.replicate 515 (1 : ℚ))).2
    (by norm_num [required_samples])
  refine ⟨hshort.1, hshort.2.1 1 (by norm_num), hshort.2.2 5 (by norm_num)
    (by norm_num [required_samples]), ?_⟩
  have h0 := hlong.2.1 0 (by norm_num [required_samples])
  rw [List.length_replicate] at h0
  exact h0

/-- C9 (counterexample): when the AI-service channel drops mid-stream while
the assistant is speaking, the service pump returns silently: the client
receives zero messages (in particular no error status) and the speaking flag
keeps its value true (main.py lines 684-688 log and return without notifying
the client or resetting `is_playing`). -/
theorem C9_midstream_drop_silent :
    runPump true [StreamEvent.streamError] = (true, []) := rfl

/-- C9 (amended): a mid-stream failure of the AI-service channel stops the
service pump with no further client message and leaves the speaking flag
exactly as the preceding messages left it; only the connect-time failure path
of the session handler notifies the client. -/
theorem C9_midstream_drop_behaviour (is_playing : Bool) (msgs : List ServerMsg) :
    runPump is_playing (msgs.map StreamEvent.msg ++ [StreamEvent.streamError])
      = runMsgs is_playing msgs := by
  induction msgs generalizing is_playing with
  | nil => rfl
  | cons m rest ih =>
    simp only [List.map_cons, List.cons_append, runPump, runMsgs, List.append_eq]
    rw [ih]

/-- C10 (counterexample): a call with fromRate = toRate = -3 (both ≤ 0)
returns the input unchanged instead of failing fast with a rate-invalid
error: `resample_audio` performs no rate validation. -/
theorem C10_no_rate_validation :
    resample_audio takeKernel [(5 : ℚ)] (-3) (-3) = Except.ok [5] := rfl

/-- C10 (amended): `resample_audio` never validates its rates: equal rates
(of any sign) return the input with no error; a zero fromRate with a
different toRate raises a division error rather than a deliberate
rate-invalid error; and for positive but differing rates the call succeeds
exactly when the truncated output count ⌊len · toRate/fromRate⌋ is at least
one, and raises (ValueError from signal.resample) when that count is below
one. -/
theorem C10_rate_error_behaviour (kernel : List ℚ → ℕ → List ℚ)
    (samples : List ℚ) (f t : ℤ) :
    (f = t → resample_audio kernel samples f t = Except.ok samples) ∧
    (f = 0 → t ≠ 0 → resample_audio kernel samples f t = Except.error ()) ∧
    (0 < f → 0 < t → f ≠ t → 1 ≤ Int.tdiv ((samples.length : ℤ) * t) f →
      ∃ out, resample_audio kernel samples f t = Except.ok out) ∧
    (0 < f → 0 < t → f ≠ t → Int.tdiv ((samples.length : ℤ) * t) f < 1 →
      resample_audio kernel samples f t = Except.error ()) := by
  refine ⟨fun hft => by simp [resample_audio, hft], fun hf ht => ?_,
    fun hf ht hft h1 => ?_, fun hf ht hft h0 => ?_⟩
  · have h0t : ¬ (0 : ℤ) = t := fun hh => ht hh.symm
    simp [resample_audio, hf, h0t]
  · exact ⟨kernel samples (Int.tdiv ((samples.length : ℤ) * t) f).toNat,
      resample_ok_of_ne kernel samples f t hf hft h1⟩
  · have hf0 : ¬ f = 0 := by omega
    simp [resample_audio, hft, hf0, h0]

/-- C10 (witness). -/
theorem C10_rate_error_behaviour_witness :
    resample_audio takeKernel [(9 : ℚ)] (-1) (-1) = Except.ok [9] ∧
    resample_audio takeKernel [(9 : ℚ)] 0 5 = Except.error () ∧
    (∃ out, resample_audio takeKernel [(9 : ℚ)] 16000 24000 = Except.ok out) ∧
    resample_audio takeKernel [(9 : ℚ)] 44100 16000 = Except.error () := by
  refine ⟨(C10_rate_error_behaviour takeKernel [(9 : ℚ)] (-1) (-1)).1 rfl,
    (C10_rate_error_behaviour takeKernel [(9 : ℚ)] 0 5).2.1 rfl (by norm_num),
    (C10_rate_error_behaviour takeKernel [(9 : ℚ)] 16000 24000).2.2.1
      (by norm_num) (by norm_num) (by norm_num) (by decide),
    (C10_rate_error_behaviour takeKernel [(9 : ℚ)] 44100 16000).2.2.2
      (by norm_num) (by norm_num) (by norm_num) (by decide)⟩
